import Mathlib

/-!
Verification of the connection-management, validation, query-execution,
data-import and export layers of a multi-database Oracle MCP server.

The Python sources (`server.py`, `logger.py`, `config.py`) are shallowly
embedded: pure string manipulation becomes functions on `String` or
`List Char`; the mutable pool registry becomes explicit state passing over
`PoolState`; calls into the database driver become `Except`-valued
parameters (the driver either produces a value or raises); the
context-manager control flow of `get_connection` is modelled by a function
that returns, besides its result and the updated registry, the trace of
acquire/release events it performed.

Python peculiarities that the embedding keeps because the source relies on
them: `str.strip` removes ASCII whitespace at both ends; `str.upper` maps
lower-case ASCII letters up; `re.match(p, s)` with a pattern ending in `$`
accepts both a full match and a full match followed by one final newline;
`dict` preserves insertion order, and inserting an existing key overwrites
in place.
-/

namespace OracleServer

/-! ## Python string primitives -/

/-- Characters `str.strip()` removes (Python ASCII whitespace). -/
def isPySpace (c : Char) : Bool :=
  c == ' ' || c == '\t' || c == '\n' || c == '\r' || c == '\x0b' || c == '\x0c'

/-- `str.strip()` on a character list. -/
def pyStripChars (l : List Char) : List Char :=
  ((l.dropWhile isPySpace).reverse.dropWhile isPySpace).reverse

/-- `str.strip()`. -/
def pyStrip (s : String) : String := String.mk (pyStripChars s.data)

/-- `str.upper()` (ASCII; the source only compares ASCII keywords). -/
def pyUpper (s : String) : String := String.mk (s.data.map Char.toUpper)

/-- Contiguous-sublist test on character lists. -/
def listSubstr (needle : List Char) : List Char → Bool
  | [] => needle.isEmpty
  | c :: cs => needle.isPrefixOf (c :: cs) || listSubstr needle cs

/-- `needle in hay` for Python strings: contiguous substring test. -/
def substrInfix (needle hay : String) : Bool :=
  listSubstr needle.data hay.data

/-- `s.startswith(pre)`. -/
def pyStartsWith (s pre : String) : Bool :=
  pre.data.isPrefixOf s.data

/-! ## Identifier validation (`server.py`, `validate_identifier`, lines 139-145)

The source tests `re.match(r'^[A-Za-z][A-Za-z0-9_$#\.]*$', name)` and
`len(name) <= 128`, returning `False` for the empty string first.
-/

/-- The character class `[A-Za-z0-9_$#\.]` of the source's pattern. -/
def isIdentTail (c : Char) : Bool :=
  c.isAlpha || c.isDigit || c == '_' || c == '$' || c == '#' || c == '.'

/-- Whole-string match of `[A-Za-z][A-Za-z0-9_$#\.]*`. -/
def matchesIdentRegex : List Char → Bool
  | [] => false
  | c :: cs => c.isAlpha && cs.all isIdentTail

/-- Python `re.match` with the source's `^...$` pattern: `$` matches at the
end of the string or just before one newline at the end of the string. -/
def pyReMatchIdent (l : List Char) : Bool :=
  matchesIdentRegex l || (l.getLast? == some '\n' && matchesIdentRegex l.dropLast)

/-- `validate_identifier` on the character list of the name. -/
def validate_identifier_chars (l : List Char) : Bool :=
  if l.isEmpty then false
  else pyReMatchIdent l && decide (l.length ≤ 128)

/-- `validate_identifier(name)` from `server.py`. -/
def validate_identifier (name : String) : Bool :=
  validate_identifier_chars name.data

/-- Modelled from the spec: "For all names matching `^[A-Za-z][A-Za-z0-9_$#.]*$`
with length ≤ 128, `is_safe_identifier` returns true; for all others (empty,
leading digit, embedded space, control characters) it returns false."
The anchored pattern is read as a whole-string match. -/
def is_safe_identifier_spec (name : String) : Bool :=
  matchesIdentRegex name.data && decide (name.data.length ≤ 128)

/-- The validator agrees with the test-suite cases of `tests/test_server.py`. -/
theorem validate_identifier_matches_tests :
    validate_identifier "MY_TABLE" = true
      ∧ validate_identifier "hr.employee" = true
      ∧ validate_identifier "INVALID-NAME" = false
      ∧ validate_identifier "; DROP TABLE" = false := by
  decide

/-- Outside the trailing-newline family the code and the spec's predicate
agree, so the divergence exhibited below is the only one. -/
theorem validate_identifier_agrees_without_trailing_newline :
    ∀ s : String, s.data.getLast? ≠ some '\n' →
      validate_identifier s = is_safe_identifier_spec s := by
  intro s h
  have hlast : (s.data.getLast? == some '\n') = false := by
    rw [beq_eq_false_iff_ne]
    exact h
  show validate_identifier_chars s.data = _
  unfold validate_identifier_chars pyReMatchIdent is_safe_identifier_spec
  rw [hlast]
  cases hd : s.data with
  | nil => simp [matchesIdentRegex]
  | cons c cs => simp

/-- Claim C4 (code bug): the spec demands that every string outside the
anchored-regex-and-length language is rejected, control characters included.
The code accepts the name `"A\n"`: Python's `$` also matches just before a
final newline, so `re.match` succeeds on it, yet the string is not in the
anchored-pattern language the spec (and the function's own "safe SQL
identifier" purpose) describes. -/
theorem C4_validator_trailing_newline :
    validate_identifier "A\n" = true
      ∧ is_safe_identifier_spec "A\n" = false
      ∧ matchesIdentRegex "A\n".data = false := by
  decide

/-! ## Configuration and name resolution (`server.py` lines 48-63 and 96-104)

A `DatabaseProfile` as `config.py` builds it: logical name (the key in
`DATABASES`), user, password, DSN, optional authorization mode.  `DATABASES`
is an insertion-ordered dict, embedded as an association list. -/

structure Profile where
  user : String
  password : String
  dsn : String
  mode : Option String
deriving DecidableEq

/-- The exceptions the connection layer can raise.  The two `ValueError`
constructors keep exactly the data each source message renders: `get_pool`
includes the list of known names, `get_connection` does not. -/
inductive PyErr where
  | valueErrorWithList (requested : String) (known : List String)
  | valueErrorNoList (requested : String)
  | createPoolFailed (name : String)
  | keyError (name : String)
  | connectFailed
  | opFailed
deriving DecidableEq

/-- `if not db_name: db_name = GLOBAL_CONFIG["default_db"]` — Python's `not`
is true for both `None` and the empty string. -/
def resolveRequested (defaultDb : String) (dbName : Option String) : String :=
  match dbName with
  | none => defaultDb
  | some s => if s = "" then defaultDb else s

/-- `k in DATABASES` for the association-list embedding of the dict. -/
def hasKey {α : Type} (l : List (String × α)) (k : String) : Bool :=
  l.any (fun p => p.1 == k)

/-- `list(DATABASES.keys())`. -/
def keysOf {α : Type} (l : List (String × α)) : List String :=
  l.map (fun p => p.1)

/-- Name resolution as `get_pool` performs it (`server.py` lines 52-63):
empty/absent falls back to the default; an unknown name falls back to the
first configured profile when no profile is named "default" and at least one
profile exists; otherwise `ValueError` naming the request and the known
names. -/
def resolve_db_name_pool (dbs : List (String × Profile)) (defaultDb : String)
    (dbName : Option String) : Except PyErr String :=
  let name := resolveRequested defaultDb dbName
  if hasKey dbs name then .ok name
  else
    match dbs with
    | [] => .error (.valueErrorWithList name (keysOf dbs))
    | (k, _) :: _ =>
      if hasKey dbs "default" then .error (.valueErrorWithList name (keysOf dbs))
      else .ok k

/-- Name resolution as `get_connection` performs it (`server.py` lines
96-104): the same branching, but its `ValueError` message is
`"Database '{db_name}' not defined."` — it does not carry the known names. -/
def resolve_db_name_conn (dbs : List (String × Profile)) (defaultDb : String)
    (dbName : Option String) : Except PyErr String :=
  let name := resolveRequested defaultDb dbName
  if hasKey dbs name then .ok name
  else
    match dbs with
    | [] => .error (.valueErrorNoList name)
    | (k, _) :: _ =>
      if hasKey dbs "default" then .error (.valueErrorNoList name)
      else .ok k

/-- Modelled from the spec (§4.1 Connection Resolver): empty/absent uses the
configured default; a resolved name that is no known profile is silently
replaced by the first profile in configured order when no profile named
"default" exists and at least one profile is configured; otherwise the call
fails with an error naming the requested value and the list of known
names. -/
def resolve_db_name_spec (dbs : List (String × Profile)) (defaultDb : String)
    (dbName : Option String) : Except PyErr String :=
  let name := resolveRequested defaultDb dbName
  if hasKey dbs name then .ok name
  else if !hasKey dbs "default" && !dbs.isEmpty then
    .ok ((keysOf dbs).headD "")
  else
    .error (.valueErrorWithList name (keysOf dbs))

/-- Forget the known-names list of a resolution error, keeping the requested
name: the shape of `get_connection`'s message relative to `get_pool`'s. -/
def stripKnown : Except PyErr String → Except PyErr String
  | .error (.valueErrorWithList r _) => .error (.valueErrorNoList r)
  | e => e

/-! ## The pool registry (`server.py`, `get_pool`, lines 48-90)

`_pools` maps a logical name to either a pool object or Python `None` (the
marker `get_pool` stores for a SYSDBA profile).  A pool object is identified
by the value of a creation counter, so "no second creation side effect" is
visible as an unchanged counter.  `validate_config()` (always true) and the
tolerant `init_oracle_client()` are side-effect-free for every observable of
the claims and are omitted.  `create_pool` either succeeds or raises; the
flag `createOk` selects which. -/

structure PoolState where
  pools : List (String × Option Nat)
  nextId : Nat
deriving DecidableEq

/-- First-match association lookup: dict access for the embedding (keys of a
Python dict are unique, so first match is the match). -/
def assocLookup {β : Type} : List (String × β) → String → Option β
  | [], _ => none
  | p :: t, k => if p.1 == k then some p.2 else assocLookup t k

/-- `_pools.get(name)` / `name in _pools`. -/
def poolLookup (ps : List (String × Option Nat)) (k : String) : Option (Option Nat) :=
  assocLookup ps k

/-- `DATABASES[name]` as a lookup. -/
def profileLookup (dbs : List (String × Profile)) (k : String) : Option Profile :=
  assocLookup dbs k

/-- `db_conf.get("mode", "").upper() == "SYSDBA"`. -/
def is_sysdba (p : Profile) : Bool :=
  pyUpper (p.mode.getD "") == "SYSDBA"

/-- `get_pool(db_name)`: resolve, return the cached entry if present, else
materialize (the `None` marker for SYSDBA, a fresh pool otherwise) and cache
it; a failed `create_pool` raises and caches nothing. -/
def get_pool (dbs : List (String × Profile)) (defaultDb : String) (st : PoolState)
    (createOk : Bool) (dbName : Option String) :
    Except PyErr (Option Nat) × PoolState :=
  match resolve_db_name_pool dbs defaultDb dbName with
  | .error e => (.error e, st)
  | .ok name =>
    match poolLookup st.pools name with
    | some entry => (.ok entry, st)
    | none =>
      match profileLookup dbs name with
      | none => (.error (.keyError name), st)
      | some conf =>
        if is_sysdba conf then
          (.ok none, { st with pools := st.pools ++ [(name, none)] })
        else if createOk then
          (.ok (some st.nextId),
            { pools := st.pools ++ [(name, some st.nextId)], nextId := st.nextId + 1 })
        else
          (.error (.createPoolFailed name), st)

/-! ## Scoped acquisition (`server.py`, `get_connection`, lines 92-133)

The context manager is embedded as a function over the whole scope: the
operation run inside the `with` block either returns (`opOk = true`) or
raises; `oracledb.connect` / `pool.acquire` either return a connection
(`connectOk = true`) or raise.  The trace records, in order, every
lease/release event the scope performs.  The `try/except` around the whole
body only logs and re-raises, adding no event. -/

inductive ConnEvent where
  | acquiredFromPool
  | releasedToPool
  | openedDirect
  | closedDirect
deriving DecidableEq

def get_connection (dbs : List (String × Profile)) (defaultDb : String)
    (st : PoolState) (createOk connectOk opOk : Bool) (dbName : Option String) :
    Except PyErr Unit × PoolState × List ConnEvent :=
  match resolve_db_name_conn dbs defaultDb dbName with
  | .error e => (.error e, st, [])
  | .ok name =>
    match get_pool dbs defaultDb st createOk (some name) with
    | (.error e, st2) => (.error e, st2, [])
    | (.ok _, st2) =>
      match profileLookup dbs name with
      | none => (.error (.keyError name), st2, [])
      | some conf =>
        if is_sysdba conf then
          -- direct connection; `try: yield conn finally: conn.close()`
          if connectOk then
            if opOk then (.ok (), st2, [.openedDirect, .closedDirect])
            else (.error .opFailed, st2, [.openedDirect, .closedDirect])
          else (.error .connectFailed, st2, [])
        else
          match poolLookup st2.pools name with
          | some (some _) =>
            -- pooled; `try: yield conn finally: pool.release(conn)`
            if connectOk then
              if opOk then (.ok (), st2, [.acquiredFromPool, .releasedToPool])
              else (.error .opFailed, st2, [.acquiredFromPool, .releasedToPool])
            else (.error .connectFailed, st2, [])
          | _ => (.error (.keyError name), st2, [])

/-! ## Fixtures for concrete evaluations -/

def pNormal : Profile := { user := "u", password := "p", dsn := "h:1521/svc", mode := none }

def pSys : Profile := { user := "sys", password := "p", dsn := "h:1521/svc", mode := some "sysdba" }

def dbs1 : List (String × Profile) := [("db1", pNormal)]

def dbsSys : List (String × Profile) := [("dbs", pSys)]

def st0 : PoolState := { pools := [], nextId := 0 }

def st1 : PoolState := { pools := [("db1", some 0)], nextId := 1 }

/-! ## Claim C2 — name resolution -/

/-- Claim C2, counterexample: when the resolved name is unknown and a profile
named "default" exists, `get_connection` raises `ValueError("Database
'nosuch' not defined.")` — the message names the requested value but not the
list of known profile names the claim promises. -/
theorem C2_resolution_counterexample :
    resolve_db_name_conn [("default", pNormal)] "default" (some "nosuch")
        = .error (.valueErrorNoList "nosuch")
      ∧ resolve_db_name_spec [("default", pNormal)] "default" (some "nosuch")
        = .error (.valueErrorWithList "nosuch" ["default"]) := by
  exact ⟨rfl, rfl⟩

/-- Claim C2 (amended): resolution behaves exactly as the claim states it for
`get_pool` — empty/absent name uses the default, an unknown name falls back
to the first configured profile precisely when no "default" profile exists
and at least one profile is configured, and the failure error names the
requested value together with the known profile names; the resolution
duplicated inside `get_connection` agrees on every successful outcome but
its error names only the requested value (the known-names list is
dropped). -/
theorem C2_resolution_amended :
    ∀ (dbs : List (String × Profile)) (defaultDb : String) (dbName : Option String),
      resolve_db_name_pool dbs defaultDb dbName = resolve_db_name_spec dbs defaultDb dbName
        ∧ resolve_db_name_conn dbs defaultDb dbName
            = stripKnown (resolve_db_name_spec dbs defaultDb dbName) := by
  intro dbs d n
  unfold resolve_db_name_pool resolve_db_name_conn resolve_db_name_spec stripKnown
  cases dbs with
  | nil => simp [hasKey, keysOf]
  | cons hd tl =>
    obtain ⟨k, v⟩ := hd
    cases hk : hasKey ((k, v) :: tl) (resolveRequested d n) with
    | true => simp [hk]
    | false =>
      cases hdef : hasKey ((k, v) :: tl) "default" with
      | true => simp [hk, hdef]
      | false => simp [hk, hdef, keysOf]

/-! ## Claim C3 — the pool registry caches at most one object per name -/

theorem assocLookup_append_of_none {β : Type} (l : List (String × β)) (k : String)
    (v : β) (h : assocLookup l k = none) :
    assocLookup (l ++ [(k, v)]) k = some v := by
  induction l with
  | nil => simp [assocLookup]
  | cons a t ih =>
    rw [List.cons_append]
    simp only [assocLookup] at h ⊢
    cases ha : (a.1 == k) with
    | true => simp [ha] at h
    | false =>
      simp only [ha] at h ⊢
      simp only [Bool.false_eq_true, if_false] at h ⊢
      exact ih h

theorem poolLookup_append_of_none (l : List (String × Option Nat)) (k : String)
    (v : Option Nat) (h : poolLookup l k = none) :
    poolLookup (l ++ [(k, v)]) k = some v :=
  assocLookup_append_of_none l k v h

theorem get_pool_cached (dbs : List (String × Profile)) (d : String) (st : PoolState)
    (c : Bool) (n : Option String) (name : String) (entry : Option Nat)
    (hres : resolve_db_name_pool dbs d n = .ok name)
    (hl : poolLookup st.pools name = some entry) :
    get_pool dbs d st c n = (.ok entry, st) := by
  simp [get_pool, hres, hl]

/-- Claim C3: at most one pool-or-strategy object per logical name.  A name
already in the registry is returned as-is with no state change (no second
creation side effect — the creation counter is untouched); an erroring call
leaves the registry exactly as it was (a failed creation caches nothing, so
a retry may create later); and a successful call is idempotent: repeating it
returns the same cached object and the same state. -/
theorem C3_pool_registry :
    ∀ (dbs : List (String × Profile)) (defaultDb : String) (st : PoolState)
      (createOk : Bool) (dbName : Option String),
      (∀ name entry, resolve_db_name_pool dbs defaultDb dbName = .ok name →
          poolLookup st.pools name = some entry →
          get_pool dbs defaultDb st createOk dbName = (.ok entry, st))
      ∧ (∀ e st2, get_pool dbs defaultDb st createOk dbName = (.error e, st2) → st2 = st)
      ∧ (∀ entry st2, get_pool dbs defaultDb st createOk dbName = (.ok entry, st2) →
          get_pool dbs defaultDb st2 createOk dbName = (.ok entry, st2)) := by
  intro dbs d st c n
  refine ⟨fun name entry hres hl => get_pool_cached dbs d st c n name entry hres hl, ?_, ?_⟩
  · intro e st2 h
    unfold get_pool at h
    split at h
    next heq => simp only [Prod.mk.injEq] at h; exact h.2.symm
    next name heq =>
      split at h
      next entry0 hl => simp at h
      next hl =>
        split at h
        next hp => simp only [Prod.mk.injEq] at h; exact h.2.symm
        next conf hp =>
          split at h
          next hs => simp at h
          next hs =>
            split at h
            next hc => simp at h
            next hc => simp only [Prod.mk.injEq] at h; exact h.2.symm
  · intro entry st2 h
    unfold get_pool at h
    split at h
    next heq => simp at h
    next name heq =>
      split at h
      next entry0 hl =>
        simp only [Prod.mk.injEq, Except.ok.injEq] at h
        obtain ⟨he, hst⟩ := h
        subst he; subst hst
        exact get_pool_cached dbs d st c n name entry0 heq hl
      next hl =>
        split at h
        next hp => simp at h
        next conf hp =>
          split at h
          next hs =>
            simp only [Prod.mk.injEq, Except.ok.injEq] at h
            obtain ⟨he, hst⟩ := h
            subst he; subst hst
            exact get_pool_cached dbs d _ c n name none heq
              (poolLookup_append_of_none st.pools name none hl)
          next hs =>
            split at h
            next hc =>
              simp only [Prod.mk.injEq, Except.ok.injEq] at h
              obtain ⟨he, hst⟩ := h
              subst he; subst hst
              exact get_pool_cached dbs d _ c n name (some st.nextId) heq
                (poolLookup_append_of_none st.pools name (some st.nextId) hl)
            next hc => simp at h

/-- Concrete run of the registry: the first acquire for `"db1"` creates pool
0, the second returns the same cached object with no state change, and a
failed creation caches nothing. -/
theorem get_pool_creates_once_example :
    get_pool dbs1 "db1" st0 true none = (.ok (some 0), st1)
      ∧ get_pool dbs1 "db1" st1 true none = (.ok (some 0), st1)
      ∧ get_pool dbs1 "db1" st0 false none = (.error (.createPoolFailed "db1"), st0) := by
  exact ⟨rfl, rfl, rfl⟩

/-! ## Claim C1 — scoped acquisition releases exactly once on every path -/

/-- Claim C1: every run of the `get_connection` scope performs either no
lease at all (resolution, pool creation or connect failed — nothing to
release) or exactly one acquire followed by exactly one matching release:
a pooled acquire is released back to the pool and a direct (SYSDBA) open is
closed, in both the normal-return and the raising run of the inner
operation; a pooled pair occurs only for a non-privileged profile and a
direct pair only for a SYSDBA profile. -/
theorem C1_scoped_release :
    ∀ (dbs : List (String × Profile)) (defaultDb : String) (st : PoolState)
      (createOk connectOk opOk : Bool) (dbName : Option String),
      ((get_connection dbs defaultDb st createOk connectOk opOk dbName).2.2 = []
        ∨ (get_connection dbs defaultDb st createOk connectOk opOk dbName).2.2
            = [ConnEvent.acquiredFromPool, ConnEvent.releasedToPool]
        ∨ (get_connection dbs defaultDb st createOk connectOk opOk dbName).2.2
            = [ConnEvent.openedDirect, ConnEvent.closedDirect])
      ∧ ((get_connection dbs defaultDb st createOk connectOk opOk dbName).2.2
            = [ConnEvent.openedDirect, ConnEvent.closedDirect] →
          ∃ name conf, resolve_db_name_conn dbs defaultDb dbName = .ok name
            ∧ profileLookup dbs name = some conf ∧ is_sysdba conf = true)
      ∧ ((get_connection dbs defaultDb st createOk connectOk opOk dbName).2.2
            = [ConnEvent.acquiredFromPool, ConnEvent.releasedToPool] →
          ∃ name conf, resolve_db_name_conn dbs defaultDb dbName = .ok name
            ∧ profileLookup dbs name = some conf ∧ is_sysdba conf = false) := by
  intro dbs d st c k o n
  unfold get_connection
  split
  next heq => simp
  next name heq =>
    split
    next e st2 heq2 => simp
    next val st2 heq2 =>
      split
      next hp => simp
      next conf hp =>
        split
        next hs =>
          split
          next hk =>
            split
            next ho =>
              exact ⟨Or.inr (Or.inr rfl),
                fun _ => ⟨name, conf, heq, hp, hs⟩,
                fun hcontra => by simp at hcontra⟩
            next ho =>
              exact ⟨Or.inr (Or.inr rfl),
                fun _ => ⟨name, conf, heq, hp, hs⟩,
                fun hcontra => by simp at hcontra⟩
          next hk => simp
        next hs =>
          split
          next pid hl =>
            split
            next hk =>
              split
              next ho =>
                exact ⟨Or.inr (Or.inl rfl),
                  fun hcontra => by simp at hcontra,
                  fun _ => ⟨name, conf, heq, hp, Bool.eq_false_iff.mpr hs⟩⟩
              next ho =>
                exact ⟨Or.inr (Or.inl rfl),
                  fun hcontra => by simp at hcontra,
                  fun _ => ⟨name, conf, heq, hp, Bool.eq_false_iff.mpr hs⟩⟩
            next hk => simp
          next hl => simp

/-- Concrete runs of the scope with the inner operation raising: the pooled
lease is still released and the direct (SYSDBA) connection still closed. -/
theorem get_connection_releases_on_op_error_example :
    (get_connection dbs1 "db1" st0 true true false none).2.2
        = [ConnEvent.acquiredFromPool, ConnEvent.releasedToPool]
      ∧ (get_connection dbsSys "dbs" st0 true true false none).2.2
        = [ConnEvent.openedDirect, ConnEvent.closedDirect] := by
  exact ⟨rfl, rfl⟩

/-! ## Query logging (`logger.py`, `QueryLogger.log_query`, lines 63-99)

`query_history` is a bounded list: append, then pop the oldest element once
the bound (`max_history = 100`) is exceeded. -/

structure QueryLogEntry where
  query : String
  duration_ms : Nat
  rows_affected : Nat
  success : Bool
  error : Option String
deriving DecidableEq

/-- `query[:200] + "..." if len(query) > 200 else query`. -/
def truncateForLog (q : String) : String :=
  if 200 < q.data.length then String.mk (q.data.take 200) ++ "..." else q

/-- `QueryLogger.log_query`: build the entry, append, evict the oldest entry
when over capacity. -/
def log_query (hist : List QueryLogEntry) (maxHistory : Nat) (q : String)
    (dur : Nat) (rows : Nat) (success : Bool) (err : Option String) :
    List QueryLogEntry :=
  let h := hist ++ [⟨truncateForLog q, dur, rows, success, err⟩]
  if maxHistory < h.length then h.drop 1 else h

/-- `QueryLogger.max_history` in `logger.py`. -/
def MAX_HISTORY : Nat := 100

/-- One entry enters the history; the oldest leaves when the bound is hit. -/
def historyAppend (hist : List QueryLogEntry) (e : QueryLogEntry) : List QueryLogEntry :=
  let h := hist ++ [e]
  if MAX_HISTORY < h.length then h.drop 1 else h

theorem log_query_eq_historyAppend (hist : List QueryLogEntry) (q : String)
    (dur rows : Nat) (success : Bool) (err : Option String) :
    log_query hist MAX_HISTORY q dur rows success err
      = historyAppend hist ⟨truncateForLog q, dur, rows, success, err⟩ := rfl

/-! ## Statement classification and keyword blocking -/

/-- `DANGEROUS_KEYWORDS` from `config.py`. -/
def DANGEROUS_KEYWORDS : List String :=
  ["DROP DATABASE", "DROP TABLESPACE", "SHUTDOWN", "ALTER SYSTEM"]

/-- `check_dangerous_query` (`server.py` lines 165-171): first deny-listed
keyword occurring as a substring of the uppercased query, if any. -/
def check_dangerous_query (q : String) : Option String :=
  DANGEROUS_KEYWORDS.find? (fun kw => substrInfix kw (pyUpper q))

/-- The Read test of `run_read_only_query` (`server.py` lines 428-429), which
realizes the spec's `classify_statement_kind`: Read iff the trimmed,
case-folded text starts with a SELECT or WITH token. -/
def classify_read (stmt : String) : Bool :=
  pyStartsWith (pyUpper (pyStrip stmt)) "SELECT"
    || pyStartsWith (pyUpper (pyStrip stmt)) "WITH"

/-! ## The read-only executor (`server.py`, `run_read_only_query`, lines 426-470)

The driver call is a parameter: it raises (`.error msg`), or returns a
cursor with no description, or a description plus result rows.  `connOk`
models whether `get_connection` produced a connection.  The result captures
which textual outcome the tool returns; the second component is the query
history after the call. -/

inductive ReadResult where
  | notSelect
  | blockedKeyword (kw : String)
  | connError
  | dbError (msg : String)
  | noDescription
  | successRes (shown : Nat) (hasMore : Bool)
deriving DecidableEq

def run_read_only_query (sql : String) (dur : Nat) (maxRowsDisplay : Nat)
    (connOk : Bool) (exec : Except String (Option (List String) × List (List String)))
    (hist : List QueryLogEntry) : ReadResult × List QueryLogEntry :=
  if !classify_read sql then (.notSelect, hist)
  else
    match check_dangerous_query sql with
    | some kw => (.blockedKeyword kw, hist)
    | none =>
      if !connOk then (.connError, hist)
      else
        match exec with
        | .error e => (.dbError e, hist)
        | .ok (none, _) => (.noDescription, hist)
        | .ok (some _, rows) =>
          let fetched := rows.take (maxRowsDisplay + 1)
          (.successRes (min fetched.length maxRowsDisplay)
              (decide (maxRowsDisplay < fetched.length)),
            log_query hist MAX_HISTORY (String.mk (sql.data.take 200)) dur
              fetched.length true none)

/-! ## The mutation executor (`server.py`, `run_modification_query`, lines 590-617)

Validation: redirect statements starting with SELECT, block any statement
containing the substring DROP; then execute+commit (`.ok rowcount`) or
rollback on a raised error. -/

inductive ModResult where
  | redirectSelect
  | blockedDrop
  | connError
  | successRes (rowsAffected : Nat)
  | execFailed (msg : String)
deriving DecidableEq

def run_modification_query (sql : String) (dur : Nat) (connOk : Bool)
    (exec : Except String Nat) (hist : List QueryLogEntry) :
    ModResult × List QueryLogEntry :=
  if pyStartsWith (pyUpper (pyStrip sql)) "SELECT" then (.redirectSelect, hist)
  else if substrInfix "DROP" (pyUpper (pyStrip sql)) then (.blockedDrop, hist)
  else if !connOk then (.connError, hist)
  else
    match exec with
    | .ok n =>
      (.successRes n,
        log_query hist MAX_HISTORY (String.mk (sql.data.take 200)) dur n true none)
    | .error e => (.execFailed e, hist)

/-! ## Claim C5 — a Read statement submitted to the mutation tool -/

def withStmt : String := "WITH T AS (SELECT 1 FROM DUAL) SELECT * FROM T"

/-- Claim C5, counterexample: this statement is classified Read (it begins
with a WITH token), yet `run_modification_query` does not reject it — the
tool only tests for a leading SELECT, so the statement is executed (and
committed) against the database. -/
theorem C5_with_not_rejected_counterexample :
    classify_read withStmt = true
      ∧ (run_modification_query withStmt 0 true (.ok 0) []).1 = ModResult.successRes 0
      ∧ (run_modification_query withStmt 0 true (.ok 0) []).2.length = 1 := by
  decide

/-- Claim C5 (amended): `run_modification_query` rejects with the
use-the-read-tool message exactly those statements whose trimmed,
case-folded text begins with SELECT, executing nothing for them; a Read
statement beginning with WITH passes this check (subject only to the DROP
substring block and execution itself). -/
theorem C5_mutation_rejects_select_only :
    ∀ (sql : String) (dur : Nat) (connOk : Bool) (exec : Except String Nat)
      (hist : List QueryLogEntry),
      ((run_modification_query sql dur connOk exec hist).1 = ModResult.redirectSelect
          ↔ pyStartsWith (pyUpper (pyStrip sql)) "SELECT" = true)
        ∧ (pyStartsWith (pyUpper (pyStrip sql)) "SELECT" = true →
            run_modification_query sql dur connOk exec hist
              = (ModResult.redirectSelect, hist)) := by
  intro sql dur connOk exec hist
  unfold run_modification_query
  cases hsel : pyStartsWith (pyUpper (pyStrip sql)) "SELECT" with
  | true => simp
  | false =>
    simp only [Bool.false_eq_true, if_false]
    constructor
    · constructor
      · intro h
        exfalso
        split at h
        · simp at h
        · split at h
          · simp at h
          · split at h
            · simp at h
            · simp at h
      · intro h
        simp at h
    · intro h
      simp at h

/-! ## Claim C6 — what gets logged -/

/-- Claim C6, counterexample: a failed execution through the read-only
executor appends nothing to the query history (the exception handler returns
the error string without calling `log_query`), where the claim demands
exactly one entry per execution, success or failure. -/
theorem C6_failed_execution_unlogged_counterexample :
    (run_read_only_query "SELECT 1 FROM DUAL" 5 100 true (.error "ORA-00942") []).1
        = ReadResult.dbError "ORA-00942"
      ∧ (run_read_only_query "SELECT 1 FROM DUAL" 5 100 true (.error "ORA-00942") []).2
        = [] := by
  decide

/-- Claim C6 (amended): exactly one `QueryLogEntry` (marked successful) is
appended — with FIFO eviction at the capacity of 100 — for each execution
that succeeds through the read-only executor (with a result description) or
the mutation executor; executions that raise, and statements rejected
before execution, append nothing. -/
theorem C6_logging_amended :
    ∀ (sql : String) (dur maxRowsDisplay : Nat) (hist : List QueryLogEntry),
      (∀ cols rows, classify_read sql = true → check_dangerous_query sql = none →
          ∃ e, e.success = true
            ∧ (run_read_only_query sql dur maxRowsDisplay true
                  (.ok (some cols, rows)) hist).2 = historyAppend hist e)
      ∧ (∀ msg, (run_read_only_query sql dur maxRowsDisplay true (.error msg) hist).2
            = hist)
      ∧ (∀ exec, (run_read_only_query sql dur maxRowsDisplay false exec hist).2 = hist)
      ∧ (∀ n, pyStartsWith (pyUpper (pyStrip sql)) "SELECT" = false →
          substrInfix "DROP" (pyUpper (pyStrip sql)) = false →
          ∃ e, e.success = true
            ∧ (run_modification_query sql dur true (.ok n) hist).2 = historyAppend hist e)
      ∧ (∀ msg, (run_modification_query sql dur true (.error msg) hist).2 = hist) := by
  intro sql dur mr hist
  refine ⟨?_, ?_, ?_, ?_, ?_⟩
  · intro cols rows hc hd
    refine ⟨⟨truncateForLog (String.mk (sql.data.take 200)), dur,
      (rows.take (mr + 1)).length, true, none⟩, rfl, ?_⟩
    simp [run_read_only_query, hc, hd, log_query_eq_historyAppend]
  · intro msg
    unfold run_read_only_query
    cases hc : classify_read sql with
    | false => simp
    | true =>
      cases hd : check_dangerous_query sql with
      | some kw => simp
      | none => simp
  · intro exec
    unfold run_read_only_query
    cases hc : classify_read sql with
    | false => simp
    | true =>
      cases hd : check_dangerous_query sql with
      | some kw => simp
      | none => simp
  · intro n hsel hdrop
    refine ⟨⟨truncateForLog (String.mk (sql.data.take 200)), dur, n, true, none⟩,
      rfl, ?_⟩
    simp [run_modification_query, hsel, hdrop, log_query_eq_historyAppend]
  · intro msg
    unfold run_modification_query
    cases hsel : pyStartsWith (pyUpper (pyStrip sql)) "SELECT" with
    | true => simp
    | false =>
      cases hdrop : substrInfix "DROP" (pyUpper (pyStrip sql)) with
      | true => simp [hsel, hdrop]
      | false => simp [hsel, hdrop]

/-- Concrete successful runs do append exactly one successful entry. -/
theorem logging_success_appends_example :
    (run_read_only_query "SELECT 1 FROM DUAL" 3 100 true (.ok (some ["1"], [["1"]])) []).2.length = 1
      ∧ (run_modification_query "UPDATE T SET X = 1" 3 true (.ok 2) []).2.length = 1
      ∧ ((run_modification_query "UPDATE T SET X = 1" 3 true (.ok 2) []).2.map
          (fun e => e.success)) = [true] := by
  decide

/-! ## Import reconciliation (`server.py`, `analyze_import_file`, lines 746-845,
and `import_data_from_file`, lines 1031-1084)

Phase 1 strips each raw header cell (`file_cols = [c.strip() for c in
df.columns]`), builds `db_col_map = {normalize(k): k}` over the destination
columns (later key collisions overwrite), and walks the file columns in
order, proposing `mapping_proposal[f_col] = db_col_map[normalize(f_col)]`
and recording the target in `used_db_cols`.  Phase 2 re-reads the file and
projects its raw header by the mapping keys (`df[list(mapping.keys())]`),
which raises `KeyError` — caught and returned as "Error preparing data" —
exactly when some key is absent from the raw header; this happens before
`get_connection` is entered, so before any database statement. -/

/-- `normalize(s) = str(s).upper().replace("_", "").replace(" ", "")`. -/
def normalizeName (s : String) : String :=
  String.mk ((s.data.map Char.toUpper).filter (fun c => !(c == '_' || c == ' ')))

/-- Python dict insertion: overwrite in place when the key exists, else
append (insertion order preserved). -/
def dictInsert (d : List (String × String)) (k v : String) : List (String × String) :=
  if d.any (fun p => p.1 == k) then d.map (fun p => if p.1 == k then (k, v) else p)
  else d ++ [(k, v)]

/-- Dict lookup. -/
def dictLookup (d : List (String × String)) (k : String) : Option String :=
  assocLookup d k

/-- `db_col_map = {normalize(k): k for k in db_cols.keys()}`. -/
def build_db_col_map (dbColNames : List String) : List (String × String) :=
  dbColNames.foldl (fun m k => dictInsert m (normalizeName k) k) []

structure AnalyzeAcc where
  mapping_proposal : List (String × String)
  used_db_cols : List String
  extra_in_file : List String
deriving DecidableEq

/-- `set.add`: idempotent insertion. -/
def addUsed (s : List String) (x : String) : List String :=
  if s.any (fun y => y == x) then s else s ++ [x]

/-- One iteration of the `for f_col in file_cols` matching loop. -/
def analyze_match_step (dbColMap : List (String × String)) (acc : AnalyzeAcc)
    (fCol : String) : AnalyzeAcc :=
  match dictLookup dbColMap (normalizeName fCol) with
  | some tgt =>
    { acc with
      mapping_proposal := dictInsert acc.mapping_proposal fCol tgt
      used_db_cols := addUsed acc.used_db_cols tgt }
  | none => { acc with extra_in_file := acc.extra_in_file ++ [fCol] }

/-- The whole matching loop of `analyze_import_file` over the stripped file
columns (report rendering omitted: presentation only). -/
def analyze_import_mapping (fileCols : List String) (dbColNames : List String) :
    AnalyzeAcc :=
  fileCols.foldl (analyze_match_step (build_db_col_map dbColNames)) ⟨[], [], []⟩

/-- `file_cols = [c.strip() for c in df.columns]`. -/
def analyze_file_cols (rawHeader : List String) : List String :=
  rawHeader.map pyStrip

/-- The machine-readable proposal phase 1 returns for a file with the given
raw header against the given destination columns. -/
def analyze_proposal (rawHeader : List String) (dbColNames : List String) :
    List (String × String) :=
  (analyze_import_mapping (analyze_file_cols rawHeader) dbColNames).mapping_proposal

/-- Phase 2 data preparation: `df[list(mapping.keys())].rename(columns=mapping)`
succeeds, giving the destination column list, iff every mapping key occurs in
the raw header; a missing key raises `KeyError`, returned as the
"Error preparing data" result before any database work. -/
def import_prepare (rawHeader : List String) (mapping : List (String × String)) :
    Except String (List String) :=
  if mapping.all (fun p => rawHeader.any (fun x => x == p.1)) then
    .ok (mapping.map (fun p => p.2))
  else .error "KeyError"

/-! ## Claim C7 — destination columns can be proposed twice -/

/-- Claim C7, counterexample: source columns `A_B` and `AB` both normalize to
`AB`, and the proposal maps both to the single destination column `AB`: the
`used_db_cols` mark is recorded but never consulted, so a destination column
is reused for two different source columns. -/
theorem C7_destination_reuse_counterexample :
    (analyze_import_mapping ["A_B", "AB"] ["AB"]).mapping_proposal
        = [("A_B", "AB"), ("AB", "AB")]
      ∧ (analyze_import_mapping ["A_B", "AB"] ["AB"]).used_db_cols = ["AB"] := by
  decide

theorem dictInsert_mem {d : List (String × String)} {k v : String} {p : String × String}
    (h : p ∈ dictInsert d k v) : p = (k, v) ∨ p ∈ d := by
  unfold dictInsert at h
  split at h
  · obtain ⟨q, hq, he⟩ := List.mem_map.mp h
    by_cases hk : (q.1 == k) = true
    · rw [if_pos hk] at he
      exact Or.inl he.symm
    · rw [if_neg hk] at he
      exact Or.inr (he ▸ hq)
  · rcases List.mem_append.mp h with hm | hm
    · exact Or.inr hm
    · simp at hm
      exact Or.inl hm

theorem dictInsert_hasKey (d : List (String × String)) (k v : String) :
    (dictInsert d k v).any (fun p => p.1 == k) = true := by
  unfold dictInsert
  split
  next hany =>
    rw [List.any_eq_true] at hany ⊢
    obtain ⟨q, hq, hqe⟩ := hany
    exact ⟨(k, v), List.mem_map.mpr ⟨q, hq, by rw [if_pos hqe]⟩, by simp⟩
  next hany =>
    rw [List.any_eq_true]
    exact ⟨(k, v), List.mem_append.mpr (Or.inr (by simp)), by simp⟩

theorem dictInsert_preserves_key (d : List (String × String)) (k v f : String)
    (h : d.any (fun p => p.1 == f) = true) :
    (dictInsert d k v).any (fun p => p.1 == f) = true := by
  unfold dictInsert
  split
  next hany =>
    rw [List.any_eq_true] at h ⊢
    obtain ⟨q, hq, hqe⟩ := h
    by_cases hk : (q.1 == k) = true
    · refine ⟨(k, v), List.mem_map.mpr ⟨q, hq, by rw [if_pos hk]⟩, ?_⟩
      have h1 : q.1 = k := by simpa using hk
      have h2 : q.1 = f := by simpa using hqe
      show (k == f) = true
      rw [← h1, h2]
      simp
    · exact ⟨q, List.mem_map.mpr ⟨q, hq, by rw [if_neg hk]⟩, hqe⟩
  next hany =>
    rw [List.any_eq_true] at h ⊢
    obtain ⟨q, hq, hqe⟩ := h
    exact ⟨q, List.mem_append.mpr (Or.inl hq), hqe⟩

theorem step_preserves_key (dbColMap : List (String × String)) (acc : AnalyzeAcc)
    (c f : String) (h : acc.mapping_proposal.any (fun p => p.1 == f) = true) :
    (analyze_match_step dbColMap acc c).mapping_proposal.any (fun p => p.1 == f)
      = true := by
  unfold analyze_match_step
  cases hl : dictLookup dbColMap (normalizeName c) with
  | none => simpa using h
  | some tgt => simpa using dictInsert_preserves_key _ _ _ _ h

theorem foldl_preserves_key (dbColMap : List (String × String)) (l : List String) :
    ∀ (acc : AnalyzeAcc) (f : String),
      acc.mapping_proposal.any (fun p => p.1 == f) = true →
      (l.foldl (analyze_match_step dbColMap) acc).mapping_proposal.any
          (fun p => p.1 == f) = true := by
  induction l with
  | nil => intro acc f h; simpa using h
  | cons c t ih =>
    intro acc f h
    rw [List.foldl_cons]
    exact ih _ f (step_preserves_key dbColMap acc c f h)

theorem foldl_adds_key (dbColMap : List (String × String)) (l : List String) :
    ∀ (acc : AnalyzeAcc) (f : String), f ∈ l →
      (dictLookup dbColMap (normalizeName f)).isSome = true →
      (l.foldl (analyze_match_step dbColMap) acc).mapping_proposal.any
          (fun p => p.1 == f) = true := by
  induction l with
  | nil => intro acc f h; simp at h
  | cons c t ih =>
    intro acc f hmem hsome
    rw [List.foldl_cons]
    rcases List.mem_cons.mp hmem with he | ht
    · subst he
      apply foldl_preserves_key
      unfold analyze_match_step
      cases hl : dictLookup dbColMap (normalizeName f) with
      | none => rw [hl] at hsome; simp at hsome
      | some tgt => simpa using dictInsert_hasKey acc.mapping_proposal f tgt
    · exact ih _ f ht hsome

theorem step_sound (dbColMap : List (String × String)) (acc : AnalyzeAcc) (c : String)
    (hacc : ∀ p ∈ acc.mapping_proposal,
      dictLookup dbColMap (normalizeName p.1) = some p.2) :
    ∀ p ∈ (analyze_match_step dbColMap acc c).mapping_proposal,
      dictLookup dbColMap (normalizeName p.1) = some p.2 := by
  intro p hp
  unfold analyze_match_step at hp
  cases hl : dictLookup dbColMap (normalizeName c) with
  | none =>
    rw [hl] at hp
    exact hacc p (by simpa using hp)
  | some tgt =>
    rw [hl] at hp
    rcases dictInsert_mem (by simpa using hp) with he | hm
    · rw [he]
      exact hl
    · exact hacc p hm

theorem foldl_sound (dbColMap : List (String × String)) (l : List String) :
    ∀ (acc : AnalyzeAcc),
      (∀ p ∈ acc.mapping_proposal, dictLookup dbColMap (normalizeName p.1) = some p.2) →
      ∀ p ∈ (l.foldl (analyze_match_step dbColMap) acc).mapping_proposal,
        dictLookup dbColMap (normalizeName p.1) = some p.2 := by
  induction l with
  | nil => intro acc h; simpa using h
  | cons c t ih =>
    intro acc h
    rw [List.foldl_cons]
    exact ih _ (step_sound dbColMap acc c h)

/-- Claim C7 (amended): every proposed pair maps a source column to the
destination column carrying the same normalized name (per the last-wins
normalized-name map over the destination columns), and every source column
with a normalized match is given a mapping; nothing prevents two source
columns with the same normalized form from being assigned the same
destination column — the `used` mark exists but is never consulted during
matching, so destination reuse can occur. -/
theorem C7_mapping_amended :
    ∀ (fileCols dbColNames : List String),
      (∀ p ∈ (analyze_import_mapping fileCols dbColNames).mapping_proposal,
          dictLookup (build_db_col_map dbColNames) (normalizeName p.1) = some p.2)
      ∧ (∀ f ∈ fileCols,
          (dictLookup (build_db_col_map dbColNames) (normalizeName f)).isSome = true →
          (analyze_import_mapping fileCols dbColNames).mapping_proposal.any
              (fun p => p.1 == f) = true) := by
  intro fileCols dbColNames
  constructor
  · exact foldl_sound _ fileCols ⟨[], [], []⟩ (by intro p hp; simp at hp)
  · intro f hf hsome
    exact foldl_adds_key _ fileCols ⟨[], [], []⟩ f hf hsome

/-- Concrete proposal agreeing with §8 property 3 of the spec:
file `{A, B}` against table `{A, B, C}` maps `A→A, B→B`. -/
theorem analyze_proposal_roundtrip_example :
    analyze_proposal ["A", "B"] ["A", "B", "C"] = [("A", "A"), ("B", "B")] := by
  decide

/-! ## Claim C10 — whitespace-padded headers across the two phases -/

/-- Claim C10, counterexample: the header holds a whitespace-padded match
`" NAME"`, but its stripped form also occurs verbatim as another raw header
cell, so the phase-2 projection by the stripped key succeeds and the import
proceeds to the database instead of failing with "Error preparing data". -/
theorem C10_whitespace_roundtrip_counterexample :
    pyStrip " NAME" = "NAME"
      ∧ (dictLookup (build_db_col_map ["NAME"]) (normalizeName (pyStrip " NAME"))).isSome
        = true
      ∧ import_prepare [" NAME", "NAME"] (analyze_proposal [" NAME", "NAME"] ["NAME"])
        = .ok ["NAME"] := by
  exact ⟨rfl, rfl, rfl⟩

/-- Claim C10 (amended): if the raw header holds a cell whose stripped form
matches a destination column, and the stripped form does not itself occur
verbatim in the raw header, then the phase-1 mapping resubmitted unchanged
to phase 2 fails at data preparation (`KeyError` on projecting the raw
header) — hence the "Error preparing data" result — before any database
statement is executed. -/
theorem C10_prepare_fails_amended :
    ∀ (rawHeader dbColNames : List String) (h : String),
      h ∈ rawHeader →
      (dictLookup (build_db_col_map dbColNames) (normalizeName (pyStrip h))).isSome
        = true →
      rawHeader.any (fun x => x == pyStrip h) = false →
      import_prepare rawHeader (analyze_proposal rawHeader dbColNames)
        = .error "KeyError" := by
  intro raw dbc h hmem hsome hnot
  have hin : pyStrip h ∈ analyze_file_cols raw := List.mem_map.mpr ⟨h, hmem, rfl⟩
  have hkey := foldl_adds_key (build_db_col_map dbc) (analyze_file_cols raw)
    ⟨[], [], []⟩ (pyStrip h) hin hsome
  rw [List.any_eq_true] at hkey
  obtain ⟨p, hp, hpe⟩ := hkey
  have hpf : p.1 = pyStrip h := by simpa using hpe
  unfold import_prepare
  cases hAll : (analyze_proposal raw dbc).all (fun q => raw.any (fun x => x == q.1)) with
  | false => simp [hAll]
  | true =>
    exfalso
    have hq := List.all_eq_true.mp hAll p hp
    rw [hpf] at hq
    rw [hnot] at hq
    exact Bool.false_ne_true hq

/-- Claim C10 witness: a single whitespace-padded matching column whose
stripped form is absent from the raw header makes phase 2 fail. -/
theorem C10_prepare_fails_witness :
    import_prepare [" NAME"] (analyze_proposal [" NAME"] ["NAME"]) = .error "KeyError" :=
  C10_prepare_fails_amended [" NAME"] ["NAME"] " NAME" (by decide) (by decide) (by decide)

/-! ## Claim C8 — the CSV export row cap (`server.py`, `export_query_to_csv`,
lines 534-547)

The fetch loop writes each fetched batch in full and only then compares
`rows_written` with `MAX_CSV_ROWS`.  The loop is embedded with a fuel
argument that the wrapper instantiates above the number of available rows,
which the fuel-irrelevance lemma shows is enough. -/

def exportFetchLoop {α : Type} (batchSize maxCsvRows : Nat) :
    Nat → Nat → List α → Nat
  | 0, written, _ => written
  | fuel + 1, written, remaining =>
    if (remaining.take batchSize).isEmpty then written
    else if maxCsvRows ≤ written + (remaining.take batchSize).length then
      written + (remaining.take batchSize).length
    else
      exportFetchLoop batchSize maxCsvRows fuel
        (written + (remaining.take batchSize).length) (remaining.drop batchSize)

/-- Number of data rows `export_query_to_csv` writes when the cursor holds
`resultRows`, fetching `batchSize` rows per `fetchmany`. -/
def export_query_to_csv_rows {α : Type} (resultRows : List α)
    (batchSize maxCsvRows : Nat) : Nat :=
  exportFetchLoop batchSize maxCsvRows (resultRows.length + 1) 0 resultRows

theorem exportFetchLoop_fuel_irrelevant {α : Type} (batch maxRows : Nat) :
    ∀ (fuel1 fuel2 written : Nat) (remaining : List α),
      remaining.length < fuel1 → remaining.length < fuel2 →
      exportFetchLoop batch maxRows fuel1 written remaining
        = exportFetchLoop batch maxRows fuel2 written remaining := by
  intro fuel1
  induction fuel1 with
  | zero => intro fuel2 w r h1 h2; omega
  | succ f ih =>
    intro fuel2 w r h1 h2
    cases fuel2 with
    | zero => omega
    | succ g =>
      unfold exportFetchLoop
      split
      · rfl
      · split
        · rfl
        · next hne _ =>
          have he : (r.take batch).isEmpty = false := Bool.eq_false_iff.mpr hne
          have hb : 0 < batch ∧ 0 < r.length := by
            rcases Nat.eq_zero_or_pos batch with hz | hp
            · rw [hz] at he
              simp at he
            · rcases Nat.eq_zero_or_pos r.length with hz2 | hp2
              · rw [List.length_eq_zero.mp hz2] at he
                simp at he
              · exact ⟨hp, hp2⟩
          apply ih
          · rw [List.length_drop]
            omega
          · rw [List.length_drop]
            omega

theorem exportFetchLoop_le {α : Type} (batch maxRows : Nat) :
    ∀ (fuel written : Nat) (remaining : List α), written < maxRows →
      exportFetchLoop batch maxRows fuel written remaining
        ≤ maxRows - 1 + batch := by
  intro fuel
  induction fuel with
  | zero => intro w r hw; unfold exportFetchLoop; omega
  | succ f ih =>
    intro w r hw
    unfold exportFetchLoop
    have hlen : (r.take batch).length ≤ batch := by
      rw [List.length_take]
      exact Nat.min_le_left _ _
    split
    · omega
    · split
      · omega
      · apply ih
        omega

/-- Claim C8, counterexample: with the cap configured to 1 and a fetch batch
of 2, a two-row result writes 2 rows — the full batch is written before the
cap check, so more than the configured maximum reaches the file. -/
theorem C8_export_exceeds_cap_counterexample :
    export_query_to_csv_rows ([0, 1] : List Nat) 2 1 = 2
      ∧ ¬ export_query_to_csv_rows ([0, 1] : List Nat) 2 1 ≤ 1 := by
  decide

/-- Claim C8 (amended): for every cap `m + 1 ≥ 1` and every batch size, the
export writes at most `m + batchSize` data rows (the cap plus at most one
batch minus one); fetching stops at the first batch that reaches the cap. -/
theorem C8_export_bound :
    ∀ (α : Type) (resultRows : List α) (batchSize m : Nat),
      export_query_to_csv_rows resultRows batchSize (m + 1) ≤ m + batchSize := by
  intro α rows batch m
  have h := exportFetchLoop_le batch (m + 1) (rows.length + 1) 0 rows (by omega)
  simpa using h

/-- The amended bound is tight: cap 3, batch 2, five rows gives 4 writes. -/
theorem export_overshoot_example :
    export_query_to_csv_rows ([0, 0, 0, 0, 0] : List Nat) 2 3 = 4 := by
  decide

/-! ## Claim C9 — every tool returns a string? (`server.py`, `list_constraints`
lines 335-367, `kill_session` lines 672-687, `list_tables` lines 262-281)

A tool is embedded as `Except PyErr String`: `.ok` is the string the tool
returns, `.error` an exception crossing the tool boundary.  In
`list_constraints` and `kill_session` the `with get_connection(...)` sits
outside every `try`, so a failed acquisition propagates; their inner
`try/except` converts only query-phase failures to strings.  `list_tables`
wraps the whole body in `try/except` and always returns a string. -/

structure ConstraintRow where
  cname : String
  ctype : String
  cond : Option String
  col : String
  rname : Option String
deriving DecidableEq

/-- `type_map` of `list_constraints`. -/
def constraint_type_label (t : String) : String :=
  if t == "P" then "Primary Key"
  else if t == "R" then "Foreign Key"
  else if t == "U" then "Unique"
  else if t == "C" then "Check"
  else t

def constraint_details (r : ConstraintRow) : String :=
  match r.cond with
  | some c => c
  | none =>
    match r.rname with
    | some rn => "Ref: " ++ rn
    | none => ""

def render_constraints_report (tableName : String) (rows : List ConstraintRow) : String :=
  if rows.isEmpty then "No constraints found for `" ++ tableName ++ "`."
  else
    rows.foldl
      (fun acc r =>
        acc ++ "| " ++ r.cname ++ " | " ++ constraint_type_label r.ctype ++ " | "
          ++ r.col ++ " | " ++ constraint_details r ++ " |\n")
      ("## Constraints for `" ++ tableName ++ "`\n\n| Name | Type | Column | Details |\n|---|---|---|---|\n")

/-- Rendering of a caught exception by `str(e)`. -/
def pyErrStr : PyErr → String
  | .valueErrorWithList r ks =>
    "Database '" ++ r ++ "' not defined in configuration. Available: "
      ++ String.intercalate ", " ks
  | .valueErrorNoList r => "Database '" ++ r ++ "' not defined."
  | .createPoolFailed n => "Failed to create pool for '" ++ n ++ "'"
  | .keyError n => "KeyError: " ++ n
  | .connectFailed => "connection failed"
  | .opFailed => "operation failed"

/-- `list_constraints`: connection scope outside any `try`; the inner
`try/except` stringifies only query failures. -/
def list_constraints (tableName : String) (conn : Except PyErr Unit)
    (q : Except String (List ConstraintRow)) : Except PyErr String :=
  match conn with
  | .error e => .error e
  | .ok _ =>
    match q with
    | .ok rows => .ok (render_constraints_report tableName rows)
    | .error msg => .ok ("Error: " ++ msg)

/-- `kill_session`: same shape as `list_constraints`. -/
def kill_session (sid serial : Nat) (conn : Except PyErr Unit)
    (execRes : Except String Unit) : Except PyErr String :=
  match conn with
  | .error e => .error e
  | .ok _ =>
    match execRes with
    | .ok _ => .ok ("Session " ++ toString sid ++ "," ++ toString serial
        ++ " killed successfully.")
    | .error msg => .ok ("Failed to kill session: " ++ msg)

/-- `list_tables`: the whole body, connection scope included, inside
`try/except`, so every outcome is a returned string. -/
def list_tables (databaseLabel : String) (conn : Except PyErr Unit)
    (q : Except String (List String)) : Except PyErr String :=
  .ok
    (match conn with
    | .error e => "Error listing tables: " ++ pyErrStr e
    | .ok _ =>
      match q with
      | .error msg => "Error listing tables: " ++ msg
      | .ok tables =>
        if tables.isEmpty then "[" ++ databaseLabel ++ "] No tables found."
        else "[" ++ databaseLabel ++ "] Found " ++ toString tables.length
          ++ " tables:\n" ++ String.intercalate "\n"
              (tables.map (fun t => "- " ++ t)))

def exceptIsOk {ε α : Type} : Except ε α → Bool
  | .ok _ => true
  | .error _ => false

/-- Claim C9, counterexample: a failed connection acquisition (here the
unknown-database `ValueError`) propagates out of `list_constraints` as an
exception — no result string is returned at the tool boundary. -/
theorem C9_exception_escapes_counterexample :
    list_constraints "EMP" (.error (.valueErrorNoList "nosuch")) (.ok [])
        = .error (.valueErrorNoList "nosuch")
      ∧ kill_session 7 9 (.error (.valueErrorNoList "nosuch")) (.ok ())
        = .error (.valueErrorNoList "nosuch") := by
  exact ⟨rfl, rfl⟩

/-- Claim C9 (amended): tools whose whole body sits inside `try/except`
(here `list_tables`) return a result string on every path, connection
failures included; but in `list_constraints` and `kill_session` the
connection scope is outside the `try`, so a failed acquisition propagates
as an exception past the tool boundary, while failures raised in the query
phase are still returned as error strings. -/
theorem C9_tool_boundary_amended :
    ∀ (tableName : String) (sid serial : Nat) (conn : Except PyErr Unit)
      (cq : Except String (List ConstraintRow)) (kq : Except String Unit)
      (tq : Except String (List String)),
      (exceptIsOk (list_tables tableName conn tq) = true)
      ∧ (∀ e, list_constraints tableName (.error e) cq = .error e)
      ∧ (exceptIsOk (list_constraints tableName (.ok ()) cq) = true)
      ∧ (∀ e, kill_session sid serial (.error e) kq = .error e)
      ∧ (exceptIsOk (kill_session sid serial (.ok ()) kq) = true) := by
  intro tableName sid serial conn cq kq tq
  refine ⟨rfl, fun e => rfl, ?_, fun e => rfl, ?_⟩
  · cases cq with
    | ok rows => rfl
    | error msg => rfl
  · cases kq with
    | ok u => rfl
    | error msg => rfl

end OracleServer
